import Mathlib

set_option maxRecDepth 10000

/-!
Verification development for the network monitor engine
(source file: src/network_monitor/src/lib.rs).

Modelling conventions of the shallow embedding:
* Bytes and ports are natural numbers; IPv4 addresses are natural numbers
  (the 32-bit value); the Display rendering of an address or protocol number
  is modelled by `toString` on the natural number, which is injective.
* `DateTime<Utc>` instants are integers (seconds); `Utc::now()` becomes an
  explicit `now` parameter threaded into each operation.
* The `f64` accumulator `bandwidth_usage` is modelled as a rational number:
  the program only ever adds nonnegative integer byte counts to it and resets
  it to zero, so rational arithmetic agrees with the IEEE double for every
  value below 2^53.
* `HashMap` is modelled as an association list; its unspecified iteration
  order becomes the list order.
* The capture handle, the sysinfo handle and the mpsc channel are I/O
  resources and are dropped from the state; an emitted alert is the
  returned `Option NetworkAlert` value.
* `EthernetPacket::new` / `Ipv4Packet::new` failures and the non-IPv4
  ethertype arm both leave the state untouched and return no alert, so the
  decode stage is abstracted into the `Frame` type below; the fields of a
  decoded IPv4 packet are carried by `Ipv4Record`.
* pnet `TcpPacket::new(buf)` succeeds exactly when `buf` has at least 20
  bytes (the minimum TCP header size) and `get_destination` reads bytes 2
  and 3 big-endian; this is modelled literally, including the fact that the
  source never consults the IPv4 protocol field before calling it.
-/

/-- `enum AlertType` (lib.rs lines 26-36). -/
inductive AlertType
  | Intrusion
  | Malware
  | Anomaly
  | Performance
  | Resource
  | Bandwidth
  | UnauthorizedAccess
  | SuspiciousTraffic
  deriving DecidableEq, Repr

/-- `enum AlertSeverity` (lib.rs lines 38-44). -/
inductive AlertSeverity
  | Critical
  | High
  | Medium
  | Low
  deriving DecidableEq, Repr

/-- `struct NetworkAlert` (lib.rs lines 13-24). -/
structure NetworkAlert where
  device_id : String
  alert_type : AlertType
  severity : AlertSeverity
  description : String
  source_ip : Option String
  destination_ip : Option String
  protocol : Option String
  port : Option Nat
  timestamp : Int
  deriving DecidableEq, Repr

/-- `struct ConnectionInfo` (lib.rs lines 56-62). -/
structure ConnectionInfo where
  first_seen : Int
  last_seen : Int
  bytes_sent : Nat
  bytes_received : Nat
  ports_accessed : List Nat
  deriving DecidableEq, Repr

/-- `struct NetworkStats` (lib.rs lines 46-54). Maps are association lists. -/
structure NetworkStats where
  bandwidth_usage : ℚ
  connection_count : Nat
  packet_count : Nat
  last_check : Int
  known_ips : List (Nat × ConnectionInfo)
  port_scan_attempts : List (Nat × List Nat)
  deriving DecidableEq, Repr

/-- `NetworkStats::default()`. -/
def NetworkStats.default : NetworkStats :=
  { bandwidth_usage := 0
    connection_count := 0
    packet_count := 0
    last_check := 0
    known_ips := []
    port_scan_attempts := [] }

/-- `struct NetworkMonitor` (lib.rs lines 64-73) without the I/O handles
(`packet_capture`, `system_info`, `alert_tx`). -/
structure NetworkMonitor where
  device_id : String
  stats : NetworkStats
  blocked_ips : List Nat
  known_malware_signatures : List (List Nat)
  suspicious_ports : List Nat
  deriving DecidableEq, Repr

/-- `load_malware_signatures` (lib.rs lines 282-300), byte for byte. -/
def load_malware_signatures : List (List Nat) :=
  [ [0x4D, 0x5A],
    [0x7F, 0x45, 0x4C, 0x46],
    [0x68, 0x74, 0x74, 0x70, 0x3A, 0x2F, 0x2F],
    [0x77, 0x73, 0x32, 0x5F],
    [0x2E, 0x65, 0x6E, 0x63, 0x72, 0x79, 0x70, 0x74],
    [0x2E, 0x6C, 0x6F, 0x63, 0x6B, 0x65, 0x64],
    [0x43, 0x4D, 0x44, 0x3A],
    [0x42, 0x4F, 0x54, 0x3A] ]

/-- `NetworkMonitor::new` (lib.rs lines 76-96): the state it constructs when
the capture device opens successfully. -/
def NetworkMonitor.new (device_id : String) : NetworkMonitor :=
  { device_id := device_id
    stats := NetworkStats.default
    blocked_ips := []
    known_malware_signatures := load_malware_signatures
    suspicious_ports := [21, 22, 23, 445, 3389] }

/-- The fields of a decoded IPv4 packet used by `analyze_packet`:
source and destination address, the protocol field, and the IPv4 payload. -/
structure Ipv4Record where
  source : Nat
  destination : Nat
  protocol : Nat
  payload : List Nat
  deriving DecidableEq, Repr

/-- Outcome of the ethernet plus IPv4 decode stage of `analyze_packet`:
a parse failure, a non-IPv4 ethertype, or a decoded IPv4 packet. -/
inductive Frame
  | fail
  | nonIpv4
  | ipv4 (r : Ipv4Record)
  deriving DecidableEq, Repr

/-- Display of an IPv4 address, modelled as `toString` of the numeric value. -/
def ipStr (ip : Nat) : String := toString ip

/-- Display of `get_next_level_protocol()`, modelled as `toString` of the
protocol number. -/
def protoStr (p : Nat) : String := toString p

/-- pnet `TcpPacket::get_destination`: bytes 2 and 3 of the buffer,
big-endian. -/
def tcp_get_destination (payload : List Nat) : Nat :=
  256 * payload.getD 2 0 + payload.getD 3 0

/-- Read access to the port-scan map: the vector stored for `k`, or the
fresh empty vector that `entry(k).or_insert_with(Vec::new)` would create. -/
def psGet : List (Nat × List Nat) → Nat → List Nat
  | [], _ => []
  | (k', v) :: rest, k => if k = k' then v else psGet rest k

/-- `entry(k).or_insert_with(Vec::new).push(p)` on the association-list
model of the port-scan map. -/
def psPush : List (Nat × List Nat) → Nat → Nat → List (Nat × List Nat)
  | [], k, p => [(k, [p])]
  | (k', v) :: rest, k, p =>
      if k = k' then (k', v ++ [p]) :: rest else (k', v) :: psPush rest k p

/-- One membership test of `payload.windows(sig.length)`: some contiguous
window of length `sig.length` equals `sig`. Faithful to Rust
`windows(n).any(..)` for every `n ≥ 1` (all configured signatures are
nonempty). -/
def windows_any (payload sig : List Nat) : Bool :=
  (List.range (payload.length + 1 - sig.length)).any
    (fun i => ((payload.drop i).take sig.length) == sig)

/-- `NetworkMonitor::check_malware_signatures` (lib.rs lines 170-177), with
the signature list passed explicitly. -/
def check_malware_signatures (sigs : List (List Nat)) (payload : List Nat) : Bool :=
  sigs.any (fun sig => windows_any payload sig)

/-- `NetworkMonitor::update_bandwidth_stats` (lib.rs lines 204-207). -/
def update_bandwidth_stats (s : NetworkStats) (bytes : Nat) : NetworkStats :=
  { s with
    bandwidth_usage := s.bandwidth_usage + (bytes : ℚ)
    packet_count := s.packet_count + 1 }

/-- The straight-line tail of `analyze_packet` after the port-scan check:
malware signature detection (lib.rs lines 146-158) followed by the
unconditional-looking bandwidth update (lib.rs line 160), which is in fact
reached only when no earlier branch returned. -/
def analyze_packet_rest (m : NetworkMonitor) (now : Int) (r : Ipv4Record) :
    NetworkMonitor × Option NetworkAlert :=
  if check_malware_signatures m.known_malware_signatures r.payload then
    (m, some
      { device_id := m.device_id
        alert_type := AlertType.Malware
        severity := AlertSeverity.Critical
        description := "Malware signature detected"
        source_ip := some (ipStr r.source)
        destination_ip := some (ipStr r.destination)
        protocol := some (protoStr r.protocol)
        port := none
        timestamp := now })
  else
    ({ m with stats := update_bandwidth_stats m.stats r.payload.length }, none)

/-- `NetworkMonitor::analyze_packet` (lib.rs lines 98-168). Returns the
mutated monitor together with the alert returned for this packet, if any. -/
def analyze_packet (m : NetworkMonitor) (now : Int) (f : Frame) :
    NetworkMonitor × Option NetworkAlert :=
  match f with
  | Frame.fail => (m, none)
  | Frame.nonIpv4 => (m, none)
  | Frame.ipv4 r =>
    if m.blocked_ips.contains r.source then
      (m, some
        { device_id := m.device_id
          alert_type := AlertType.UnauthorizedAccess
          severity := AlertSeverity.High
          description := "Traffic from blocked IP: " ++ ipStr r.source
          source_ip := some (ipStr r.source)
          destination_ip := some (ipStr r.destination)
          protocol := some (protoStr r.protocol)
          port := none
          timestamp := now })
    else
      if 20 ≤ r.payload.length then
        let port := tcp_get_destination r.payload
        let psa := psPush m.stats.port_scan_attempts r.source port
        let m1 : NetworkMonitor :=
          { m with stats := { m.stats with port_scan_attempts := psa } }
        if 10 < (psGet m1.stats.port_scan_attempts r.source).length then
          (m1, some
            { device_id := m.device_id
              alert_type := AlertType.Intrusion
              severity := AlertSeverity.Critical
              description := "Possible port scan from " ++ ipStr r.source
              source_ip := some (ipStr r.source)
              destination_ip := some (ipStr r.destination)
              protocol := some "TCP"
              port := some port
              timestamp := now })
        else
          analyze_packet_rest m1 now r
      else
        analyze_packet_rest m now r

/-- Display of the two-decimal float rendering of the bandwidth metric,
modelled as a function of the computed rational value. -/
def mbpsStr (q : ℚ) : String := toString q

/-- One iteration of the `NetworkMonitor::monitor_bandwidth` loop body
(lib.rs lines 179-202): the threshold check, the optional alert, and the
unconditional reset of the accumulator. -/
def monitor_bandwidth_tick (m : NetworkMonitor) (now : Int) :
    NetworkMonitor × Option NetworkAlert :=
  let bandwidth_mbps : ℚ := m.stats.bandwidth_usage / 1000000
  let alert : Option NetworkAlert :=
    if 100 < bandwidth_mbps then
      some
        { device_id := m.device_id
          alert_type := AlertType.Bandwidth
          severity := AlertSeverity.Medium
          description := "High bandwidth usage: " ++ mbpsStr bandwidth_mbps ++ " Mbps"
          source_ip := none
          destination_ip := none
          protocol := none
          port := none
          timestamp := now }
    else none
  ({ m with stats := { m.stats with bandwidth_usage := 0 } }, alert)

/-- The per-IP loop of `detect_anomalies` (lib.rs lines 230-261): for each
tracked IP, in map order, first the port-access check and then the
data-burst check. -/
def anomaly_scan (device_id : String) (now : Int) :
    List (Nat × ConnectionInfo) → Option NetworkAlert
  | [] => none
  | (ip, info) :: rest =>
    if 20 < info.ports_accessed.length then
      some
        { device_id := device_id
          alert_type := AlertType.Anomaly
          severity := AlertSeverity.High
          description := "Unusual port access pattern from IP: " ++ ipStr ip
          source_ip := some (ipStr ip)
          destination_ip := none
          protocol := none
          port := none
          timestamp := now }
    else if 1000000 < info.bytes_sent ∧ now - info.first_seen < 60 then
      some
        { device_id := device_id
          alert_type := AlertType.Anomaly
          severity := AlertSeverity.High
          description := "Data burst from IP: " ++ ipStr ip ++ " (" ++
            toString info.bytes_sent ++ " bytes)"
          source_ip := some (ipStr ip)
          destination_ip := none
          protocol := none
          port := none
          timestamp := now }
    else anomaly_scan device_id now rest

/-- `NetworkMonitor::detect_anomalies` (lib.rs lines 209-279). -/
def detect_anomalies (m : NetworkMonitor) (now : Int) : Option NetworkAlert :=
  if 10000 < m.stats.packet_count then
    some
      { device_id := m.device_id
        alert_type := AlertType.Anomaly
        severity := AlertSeverity.High
        description := "Traffic spike detected: " ++ toString m.stats.packet_count ++
          " packets/min"
        source_ip := none
        destination_ip := none
        protocol := none
        port := none
        timestamp := now }
  else
    match anomaly_scan m.device_id now m.stats.known_ips with
    | some a => some a
    | none =>
      if 100 < m.stats.connection_count then
        some
          { device_id := m.device_id
            alert_type := AlertType.Anomaly
            severity := AlertSeverity.Medium
            description := "High connection count: " ++ toString m.stats.connection_count
            source_ip := none
            destination_ip := none
            protocol := none
            port := none
            timestamp := now }
      else none

/-- Feed a list of frames through `analyze_packet` in order, collecting the
per-packet alert outcomes. -/
def run_packets (m : NetworkMonitor) (now : Int) :
    List Frame → NetworkMonitor × List (Option NetworkAlert)
  | [] => (m, [])
  | f :: fs =>
    let p := analyze_packet m now f
    let q := run_packets p.1 now fs
    (q.1, p.2 :: q.2)

/-! ### Concrete fixtures used by the closed theorems -/

/-- Fixture: a 20-byte payload whose TCP destination-port bytes encode port
80 and which matches no malware signature. -/
def payloadTcp80 : List Nat := [0, 0, 0, 80] ++ List.replicate 16 0

/-- Fixture: the bytes of `XXXXCMD:shutdownYYYY`, a 20-byte payload
containing the configured signature `CMD:` as a contiguous run. -/
def cmdPayload : List Nat :=
  [88, 88, 88, 88, 67, 77, 68, 58, 115, 104, 117, 116, 100, 111, 119, 110, 89, 89, 89, 89]

/-- Fixture: the same payload with the four signature bytes reordered to
`DMC:`; it contains no configured signature. -/
def dmcPayload : List Nat :=
  [88, 88, 88, 88, 68, 77, 67, 58, 115, 104, 117, 116, 100, 111, 119, 110, 89, 89, 89, 89]

/-- Fixture: a payload that ends one byte short of the full `CMD:`
signature (it contains `CMD` but not the trailing colon). -/
def cmdShortPayload : List Nat := [88, 88, 67, 77, 68]

/-- Fixture: a monitor whose blocklist contains address 5. -/
def mBlocked : NetworkMonitor :=
  { NetworkMonitor.new "d" with blocked_ips := [5] }

/-- Fixture: a decoded IPv4 packet whose source address 5 is on the
blocklist of `mBlocked`. -/
def rBlocked : Ipv4Record := ⟨5, 2, 6, payloadTcp80⟩

/-- Fixture: a decoded IPv4 packet whose protocol field is 17 (UDP, not
TCP) and whose 20-byte payload would read as destination port 53 if
misinterpreted as a TCP header. -/
def udpRecord : Ipv4Record := ⟨9, 2, 17, [0, 0, 0, 53] ++ List.replicate 16 0⟩

/-- Fixture: stats in which address 1 qualifies for the data-burst check
(2000000 bytes sent, first seen at time 0) and address 2 qualifies for the
port-access check (21 accessed ports), with address 1 enumerated first. -/
def mAnomaly : NetworkMonitor :=
  { NetworkMonitor.new "d" with stats :=
    { NetworkStats.default with known_ips :=
        [(1, ⟨0, 0, 2000000, 0, []⟩), (2, ⟨0, 0, 0, 0, List.replicate 21 80⟩)] } }

/-- Fixture: stats with `packet_count = 10001` while address 2 also
qualifies for the port-access check. -/
def mSpike : NetworkMonitor :=
  { NetworkMonitor.new "d" with stats :=
    { NetworkStats.default with
        packet_count := 10001
        known_ips := [(2, ⟨0, 0, 0, 0, List.replicate 21 80⟩)] } }

/-- Fixture: a monitor whose port-scan tracker already holds 11 entries for
source address 1. -/
def mScanned : NetworkMonitor :=
  { NetworkMonitor.new "d" with stats :=
    { NetworkStats.default with port_scan_attempts := [(1, List.replicate 11 80)] } }

/-! ### Helper lemmas about the association-list model of the port-scan map -/

theorem psGet_psPush_self (m : List (Nat × List Nat)) (k p : Nat) :
    psGet (psPush m k p) k = psGet m k ++ [p] := by
  induction m with
  | nil => simp [psPush, psGet]
  | cons hd tl ih =>
    obtain ⟨k', v⟩ := hd
    by_cases h : k = k'
    · simp [psPush, psGet, h]
    · simp [psPush, psGet, h, ih]

theorem psGet_psPush_ne (m : List (Nat × List Nat)) (k p j : Nat) (h : j ≠ k) :
    psGet (psPush m k p) j = psGet m j := by
  induction m with
  | nil => simp [psPush, psGet, h]
  | cons hd tl ih =>
    obtain ⟨k', v⟩ := hd
    by_cases h2 : k = k'
    · subst h2
      simp [psPush, psGet, h]
    · simp only [psPush, if_neg h2]
      by_cases h3 : j = k'
      · simp [psGet, h3]
      · simp [psGet, h3, ih]

theorem psGet_psPush (m : List (Nat × List Nat)) (k p j : Nat) :
    psGet (psPush m k p) j = psGet m j ++ (if j = k then [p] else []) := by
  by_cases h : j = k
  · subst h
    simp [psGet_psPush_self]
  · simp [psGet_psPush_ne m k p j h, h]

/-! ### The sliding-window membership test and contiguous containment -/

theorem windows_any_iff (payload sig : List Nat) :
    windows_any payload sig = true ↔ ∃ s t, payload = s ++ sig ++ t := by
  unfold windows_any
  rw [List.any_eq_true]
  constructor
  · rintro ⟨i, hmem, heq⟩
    rw [beq_iff_eq] at heq
    refine ⟨payload.take i, payload.drop (i + sig.length), ?_⟩
    calc payload = payload.take i ++ payload.drop i :=
          (List.take_append_drop i payload).symm
      _ = payload.take i ++
            ((payload.drop i).take sig.length ++ payload.drop (i + sig.length)) := by
          rw [List.drop_take_append_drop]
      _ = payload.take i ++ sig ++ payload.drop (i + sig.length) := by
          rw [heq, List.append_assoc]
  · rintro ⟨s, t, rfl⟩
    refine ⟨s.length, ?_, ?_⟩
    · rw [List.mem_range]
      simp only [List.length_append]
      omega
    · rw [beq_iff_eq, List.append_assoc, List.drop_left, List.take_left]

theorem check_malware_signatures_iff (sigs : List (List Nat)) (payload : List Nat) :
    check_malware_signatures sigs payload = true ↔
      ∃ sig ∈ sigs, ∃ s t, payload = s ++ sig ++ t := by
  unfold check_malware_signatures
  rw [List.any_eq_true]
  constructor
  · rintro ⟨sig, hmem, hw⟩
    exact ⟨sig, hmem, (windows_any_iff payload sig).mp hw⟩
  · rintro ⟨sig, hmem, hin⟩
    exact ⟨sig, hmem, (windows_any_iff payload sig).mpr hin⟩

/-! ### Structural lemmas about one `analyze_packet` invocation -/

theorem analyze_packet_rest_psa (m : NetworkMonitor) (now : Int) (r : Ipv4Record) :
    (analyze_packet_rest m now r).1.stats.port_scan_attempts =
      m.stats.port_scan_attempts := by
  unfold analyze_packet_rest
  split
  · rfl
  · simp [update_bandwidth_stats]

theorem analyze_packet_rest_counters (m : NetworkMonitor) (now : Int) (r : Ipv4Record) :
    (analyze_packet_rest m now r).1.stats.packet_count =
      (if (analyze_packet_rest m now r).2.isNone then m.stats.packet_count + 1
       else m.stats.packet_count) ∧
    (analyze_packet_rest m now r).1.stats.bandwidth_usage =
      (if (analyze_packet_rest m now r).2.isNone then
        m.stats.bandwidth_usage + (r.payload.length : ℚ)
       else m.stats.bandwidth_usage) ∧
    (analyze_packet_rest m now r).1.stats.known_ips = m.stats.known_ips ∧
    (analyze_packet_rest m now r).1.stats.connection_count = m.stats.connection_count ∧
    (analyze_packet_rest m now r).1.blocked_ips = m.blocked_ips := by
  unfold analyze_packet_rest
  split
  · simp
  · simp [update_bandwidth_stats]

theorem analyze_packet_rest_alert_kind (m : NetworkMonitor) (now : Int) (r : Ipv4Record) :
    (analyze_packet_rest m now r).2.map (fun a => (a.alert_type, a.severity)) = none ∨
    (analyze_packet_rest m now r).2.map (fun a => (a.alert_type, a.severity)) =
      some (AlertType.Malware, AlertSeverity.Critical) := by
  unfold analyze_packet_rest
  split
  · right; rfl
  · left; rfl

theorem analyze_packet_psa (m : NetworkMonitor) (now : Int) (r : Ipv4Record) :
    (analyze_packet m now (Frame.ipv4 r)).1.stats.port_scan_attempts =
      if r.source ∈ m.blocked_ips then m.stats.port_scan_attempts
      else if 20 ≤ r.payload.length then
        psPush m.stats.port_scan_attempts r.source (tcp_get_destination r.payload)
      else m.stats.port_scan_attempts := by
  by_cases hm : r.source ∈ m.blocked_ips
  · simp [analyze_packet, hm]
  · by_cases hl : 20 ≤ r.payload.length
    · simp only [analyze_packet, hm, if_false, if_pos hl, List.elem_eq_mem,
        decide_eq_true_eq]
      split
      · simp [hm]
      · simp [hm, hl, analyze_packet_rest_psa]
    · simp [analyze_packet, hm, hl, analyze_packet_rest_psa]

theorem analyze_packet_passthrough (m : NetworkMonitor) (now : Int) :
    analyze_packet m now Frame.fail = (m, none) ∧
    analyze_packet m now Frame.nonIpv4 = (m, none) :=
  ⟨rfl, rfl⟩

theorem analyze_packet_effects (m : NetworkMonitor) (now : Int) (r : Ipv4Record) :
    (analyze_packet m now (Frame.ipv4 r)).1.stats.packet_count =
      (if (analyze_packet m now (Frame.ipv4 r)).2.isNone then
        m.stats.packet_count + 1
       else m.stats.packet_count) ∧
    (analyze_packet m now (Frame.ipv4 r)).1.stats.known_ips = m.stats.known_ips ∧
    (analyze_packet m now (Frame.ipv4 r)).1.stats.connection_count =
      m.stats.connection_count ∧
    (analyze_packet m now (Frame.ipv4 r)).1.blocked_ips = m.blocked_ips ∧
    (analyze_packet m now (Frame.ipv4 r)).1.device_id = m.device_id := by
  by_cases hm : r.source ∈ m.blocked_ips
  · simp [analyze_packet, hm]
  · by_cases hl : 20 ≤ r.payload.length
    · simp only [analyze_packet, hm, if_false, if_pos hl, List.elem_eq_mem,
        decide_eq_true_eq]
      split
      · simp
      · simp only [analyze_packet_rest]
        split <;> simp [update_bandwidth_stats]
    · simp only [analyze_packet, hm, if_false, if_neg hl, List.elem_eq_mem,
        decide_eq_true_eq, analyze_packet_rest]
      split <;> simp [update_bandwidth_stats]

theorem analyze_packet_bandwidth (m : NetworkMonitor) (now : Int) (r : Ipv4Record) :
    (analyze_packet m now (Frame.ipv4 r)).1.stats.bandwidth_usage =
      (if (analyze_packet m now (Frame.ipv4 r)).2.isNone then
        m.stats.bandwidth_usage + (r.payload.length : ℚ)
       else m.stats.bandwidth_usage) := by
  by_cases hm : r.source ∈ m.blocked_ips
  · simp [analyze_packet, hm]
  · by_cases hl : 20 ≤ r.payload.length
    · simp only [analyze_packet, hm, if_false, if_pos hl, List.elem_eq_mem,
        decide_eq_true_eq]
      split
      · simp
      · simp [analyze_packet_rest]
        split <;> simp [update_bandwidth_stats]
    · simp only [analyze_packet, hm, if_false, if_neg hl, List.elem_eq_mem,
        decide_eq_true_eq]
      simp [analyze_packet_rest]
      split <;> simp [update_bandwidth_stats]

theorem analyze_packet_tracked_alert (m : NetworkMonitor) (now : Int) (r : Ipv4Record)
    (hm : r.source ∉ m.blocked_ips) (hl : 20 ≤ r.payload.length) :
    ((analyze_packet m now (Frame.ipv4 r)).2.map (fun a => (a.alert_type, a.severity)) =
        some (AlertType.Intrusion, AlertSeverity.Critical)) ↔
      10 ≤ (psGet m.stats.port_scan_attempts r.source).length := by
  simp only [analyze_packet, hm, if_false, if_pos hl, List.elem_eq_mem,
    decide_eq_true_eq, psGet_psPush_self, List.length_append, List.length_cons,
    List.length_nil]
  split
  · next h =>
    simp only [Option.map_some]
    constructor
    · intro _
      omega
    · intro _
      rfl
  · next h =>
    constructor
    · intro hc
      rcases analyze_packet_rest_alert_kind _ now r with hk | hk
      · rw [hc] at hk
        cases hk
      · rw [hc] at hk
        simp only [Option.some.injEq, Prod.mk.injEq] at hk
        cases hk.1
    · intro hc
      omega

/-! ### Claim theorems -/

/-- Claim C1, counterexample: a decoded IPv4 packet from the blocked address
5 is processed, an alert is produced, and neither `packet_count` nor
`bandwidth_usage` is updated for it, although its payload has 20 bytes.
This refutes the claim that the traffic accounting runs for every decoded
IPv4 packet regardless of detector outcome. -/
theorem c1_accounting_skipped_on_alert :
    (analyze_packet mBlocked 0 (Frame.ipv4 rBlocked)).2.isSome = true ∧
    (analyze_packet mBlocked 0 (Frame.ipv4 rBlocked)).1.stats.packet_count =
      mBlocked.stats.packet_count ∧
    (analyze_packet mBlocked 0 (Frame.ipv4 rBlocked)).1.stats.bandwidth_usage =
      mBlocked.stats.bandwidth_usage ∧
    rBlocked.payload.length = 20 := by decide

/-- Claim C1 as amended: for every decoded IPv4 packet, `packet_count` is
incremented and `bandwidth_usage` grows by the payload byte count exactly
when no detector produced an alert for that packet; when any detector
fires, both counters are left unchanged; and no per-source `ConnectionInfo`
is ever created or updated (`known_ips` is untouched in both cases). -/
theorem c1_accounting_iff_no_alert (m : NetworkMonitor) (now : Int) (r : Ipv4Record) :
    (analyze_packet m now (Frame.ipv4 r)).1.stats.packet_count =
      (if (analyze_packet m now (Frame.ipv4 r)).2.isNone then
        m.stats.packet_count + 1
       else m.stats.packet_count) ∧
    (analyze_packet m now (Frame.ipv4 r)).1.stats.bandwidth_usage =
      (if (analyze_packet m now (Frame.ipv4 r)).2.isNone then
        m.stats.bandwidth_usage + (r.payload.length : ℚ)
       else m.stats.bandwidth_usage) ∧
    (analyze_packet m now (Frame.ipv4 r)).1.stats.known_ips = m.stats.known_ips :=
  ⟨(analyze_packet_effects m now r).1, analyze_packet_bandwidth m now r,
    (analyze_packet_effects m now r).2.1⟩

/-- Claim C3, counterexample: the first observed packet from source address
7 is fully processed without any alert, yet no `ConnectionInfo` entry is
created for it — `known_ips` stays empty. -/
theorem c3_no_entry_created :
    (analyze_packet (NetworkMonitor.new "d") 0 (Frame.ipv4 ⟨7, 2, 6, payloadTcp80⟩)).2 =
      none ∧
    (analyze_packet (NetworkMonitor.new "d") 0
      (Frame.ipv4 ⟨7, 2, 6, payloadTcp80⟩)).1.stats.known_ips = [] := by decide

/-- Claim C3 as amended: no operation of the monitor ever creates, updates
or evicts a `ConnectionInfo` entry: `known_ips` is left exactly as it was
by every `analyze_packet` call and by every bandwidth roll-up tick (and the
anomaly sweep only reads it). -/
theorem c3_known_ips_never_updated (m : NetworkMonitor) (now : Int) (f : Frame) :
    (analyze_packet m now f).1.stats.known_ips = m.stats.known_ips ∧
    (monitor_bandwidth_tick m now).1.stats.known_ips = m.stats.known_ips := by
  constructor
  · match f with
    | Frame.fail => rfl
    | Frame.nonIpv4 => rfl
    | Frame.ipv4 r => exact (analyze_packet_effects m now r).2.1
  · rfl

/-- Claim C4, behavior of the code at the failing input: a decoded IPv4
packet whose protocol field is 17 (UDP, not TCP) and whose payload has 20
bytes is still fed to the TCP parser, and bytes 2 and 3 of its payload
(the value 53) are appended to the port-scan tracker for its source. -/
theorem c4_nontcp_payload_tracked :
    udpRecord.protocol = 17 ∧
    psGet (analyze_packet (NetworkMonitor.new "d") 0
      (Frame.ipv4 udpRecord)).1.stats.port_scan_attempts udpRecord.source = [53] := by decide

/-- Claim C5: the malware scanner matches exactly when the payload contains
a configured signature as a contiguous byte run; the fixture payload ending
one byte short of the full `CMD:` signature produces no match; the payload
containing `CMD:` yields a Malware/Critical alert through the pipeline; and
the same payload with those bytes reordered to `DMC:` yields no alert. -/
theorem c5_malware_signature_containment :
    (∀ payload : List Nat,
      check_malware_signatures load_malware_signatures payload = true ↔
        ∃ sig ∈ load_malware_signatures, ∃ s t, payload = s ++ sig ++ t) ∧
    check_malware_signatures load_malware_signatures cmdShortPayload = false ∧
    ((analyze_packet (NetworkMonitor.new "d") 0 (Frame.ipv4 ⟨1, 2, 6, cmdPayload⟩)).2.map
        (fun a => (a.alert_type, a.severity)) =
      some (AlertType.Malware, AlertSeverity.Critical)) ∧
    (analyze_packet (NetworkMonitor.new "d") 0 (Frame.ipv4 ⟨1, 2, 6, dmcPayload⟩)).2 =
      none := by
  refine ⟨fun payload => check_malware_signatures_iff load_malware_signatures payload,
    ?_, ?_, ?_⟩ <;> decide

/-- Claim C7: a bandwidth roll-up tick computes `bandwidth_usage / 1000000`,
emits a Bandwidth/Medium alert carrying the computed value exactly when
that value exceeds 100, and always leaves `bandwidth_usage` at exactly
zero afterwards. -/
theorem c7_bandwidth_tick (m : NetworkMonitor) (now : Int) :
    (monitor_bandwidth_tick m now).1.stats.bandwidth_usage = 0 ∧
    (monitor_bandwidth_tick m now).2 =
      (if 100 < m.stats.bandwidth_usage / 1000000 then
        some ⟨m.device_id, AlertType.Bandwidth, AlertSeverity.Medium,
          "High bandwidth usage: " ++ mbpsStr (m.stats.bandwidth_usage / 1000000) ++ " Mbps",
          none, none, none, none, now⟩
       else none) ∧
    (((monitor_bandwidth_tick m now).2).isSome = true ↔
      (100000000 : ℚ) < m.stats.bandwidth_usage) := by
  refine ⟨rfl, rfl, ?_⟩
  have h : ((100 : ℚ) < m.stats.bandwidth_usage / 1000000) ↔
      ((100000000 : ℚ) < m.stats.bandwidth_usage) := by
    rw [lt_div_iff₀ (by norm_num)]
    norm_num
  simp only [monitor_bandwidth_tick]
  split
  · next hc => simpa using h.mp hc
  · next hc =>
    simp only [Option.isSome_none, Bool.false_eq_true, false_iff]
    exact fun hh => hc (h.mpr hh)

/-- Claim C8: for a decoded IPv4 packet whose source is on the blocklist,
the pipeline returns exactly the UnauthorizedAccess/High alert and the
whole monitor state — tracker, malware configuration and all counters — is
left untouched. -/
theorem c8_blocked_ip_short_circuit (m : NetworkMonitor) (now : Int) (r : Ipv4Record)
    (h : r.source ∈ m.blocked_ips) :
    analyze_packet m now (Frame.ipv4 r) =
      (m, some ⟨m.device_id, AlertType.UnauthorizedAccess, AlertSeverity.High,
        "Traffic from blocked IP: " ++ ipStr r.source, some (ipStr r.source),
        some (ipStr r.destination), some (protoStr r.protocol), none, now⟩) := by
  simp [analyze_packet, h]

/-- Claim C8, witness: the theorem applied to the fixture monitor whose
blocklist holds address 5 and a packet from that address. -/
theorem c8_witness :
    analyze_packet mBlocked 0 (Frame.ipv4 rBlocked) =
      (mBlocked, some ⟨mBlocked.device_id, AlertType.UnauthorizedAccess, AlertSeverity.High,
        "Traffic from blocked IP: " ++ ipStr rBlocked.source, some (ipStr rBlocked.source),
        some (ipStr rBlocked.destination), some (protoStr rBlocked.protocol), none, 0⟩) :=
  c8_blocked_ip_short_circuit mBlocked 0 rBlocked (by decide)

/-- Claim C2, counterexample: a single non-blocked source sends 11 TCP
packets all to the same destination port 80 — only one distinct port — and
the 11th packet already produces the Intrusion alert. This refutes the
claim that fewer than 11 distinct ports never produce an alert. -/
theorem c2_eleven_same_port_alerts :
    ((run_packets (NetworkMonitor.new "d") 0
        (List.replicate 11 (Frame.ipv4 ⟨1, 2, 6, payloadTcp80⟩))).2.map
      (Option.map (fun a => a.alert_type)) =
      List.replicate 10 none ++ [some AlertType.Intrusion]) ∧
    ((psGet (run_packets (NetworkMonitor.new "d") 0
        (List.replicate 11 (Frame.ipv4 ⟨1, 2, 6, payloadTcp80⟩))).1.stats.port_scan_attempts
        1).dedup.length = 1) := by decide

/-- Claim C2 as amended: the port-scan detector counts tracked packets, not
distinct ports. Every packet from a non-blocked source whose payload parses
as TCP appends its destination port to the tracker, duplicates included,
and the Intrusion/Critical alert is returned exactly when more than 10
entries (including the new one) are tracked, i.e. from the 11th tracked
packet on, regardless of how many distinct ports occur. -/
theorem c2_tracker_counts_packets_not_distinct_ports (m : NetworkMonitor) (now : Int)
    (r : Ipv4Record) (hm : r.source ∉ m.blocked_ips) (hl : 20 ≤ r.payload.length) :
    psGet (analyze_packet m now (Frame.ipv4 r)).1.stats.port_scan_attempts r.source =
      psGet m.stats.port_scan_attempts r.source ++ [tcp_get_destination r.payload] ∧
    (((analyze_packet m now (Frame.ipv4 r)).2.map (fun a => (a.alert_type, a.severity)) =
        some (AlertType.Intrusion, AlertSeverity.Critical)) ↔
      10 ≤ (psGet m.stats.port_scan_attempts r.source).length) := by
  constructor
  · rw [analyze_packet_psa, if_neg hm, if_pos hl, psGet_psPush_self]
  · exact analyze_packet_tracked_alert m now r hm hl

/-- Claim C2, witness: the amended theorem applied to a fresh monitor and
the first TCP packet from source 1. -/
theorem c2_witness :
    psGet (analyze_packet (NetworkMonitor.new "d") 0
        (Frame.ipv4 ⟨1, 2, 6, payloadTcp80⟩)).1.stats.port_scan_attempts 1 =
      psGet (NetworkMonitor.new "d").stats.port_scan_attempts 1 ++
        [tcp_get_destination payloadTcp80] ∧
    (((analyze_packet (NetworkMonitor.new "d") 0
          (Frame.ipv4 ⟨1, 2, 6, payloadTcp80⟩)).2.map (fun a => (a.alert_type, a.severity)) =
        some (AlertType.Intrusion, AlertSeverity.Critical)) ↔
      10 ≤ (psGet (NetworkMonitor.new "d").stats.port_scan_attempts 1).length) :=
  c2_tracker_counts_packets_not_distinct_ports (NetworkMonitor.new "d") 0
    ⟨1, 2, 6, payloadTcp80⟩ (by decide) (by decide)

/-- Claim C6, counterexample: in a state where address 1 (enumerated first)
qualifies only for the data-burst check and address 2 qualifies for the
port-access check, the sweep returns the data-burst alert for address 1,
although under the claimed global check order the port-access check would
fire first. The per-IP loop interleaves checks 2 and 3. -/
theorem c6_interleaved_scan_order :
    ((detect_anomalies mAnomaly 0).map (fun a => a.description) =
      some "Data burst from IP: 1 (2000000 bytes)") ∧
    (∃ e ∈ mAnomaly.stats.known_ips, 20 < e.2.ports_accessed.length) ∧
    mAnomaly.stats.packet_count ≤ 10000 := by decide

/-- Claim C6 as amended: the sweep checks `packet_count` first — in
particular `packet_count = 10001` yields the traffic-spike alert even when
an IP also qualifies for the port-access check — and then iterates the
tracked IPs in enumeration order, evaluating the port-access check and then
the data-burst check per IP, so the first enumerated IP satisfying its own
check wins rather than a globally ordered check 2 before check 3. -/
theorem c6_check_order :
    (∀ (m : NetworkMonitor) (now : Int), 10000 < m.stats.packet_count →
      detect_anomalies m now =
        some ⟨m.device_id, AlertType.Anomaly, AlertSeverity.High,
          "Traffic spike detected: " ++ toString m.stats.packet_count ++ " packets/min",
          none, none, none, none, now⟩) ∧
    (∀ (m : NetworkMonitor) (now : Int) (ip : Nat) (info : ConnectionInfo)
        (rest : List (Nat × ConnectionInfo)),
      m.stats.packet_count ≤ 10000 →
      m.stats.known_ips = (ip, info) :: rest →
      info.ports_accessed.length ≤ 20 →
      1000000 < info.bytes_sent →
      now - info.first_seen < 60 →
      detect_anomalies m now =
        some ⟨m.device_id, AlertType.Anomaly, AlertSeverity.High,
          "Data burst from IP: " ++ ipStr ip ++ " (" ++ toString info.bytes_sent ++ " bytes)",
          some (ipStr ip), none, none, none, now⟩) := by
  constructor
  · intro m now h
    unfold detect_anomalies
    rw [if_pos h]
  · intro m now ip info rest h1 h2 h3 h4 h5
    have hscan : anomaly_scan m.device_id now ((ip, info) :: rest) =
        some ⟨m.device_id, AlertType.Anomaly, AlertSeverity.High,
          "Data burst from IP: " ++ ipStr ip ++ " (" ++ toString info.bytes_sent ++ " bytes)",
          some (ipStr ip), none, none, none, now⟩ := by
      simp only [anomaly_scan]
      rw [if_neg (by omega), if_pos ⟨h4, h5⟩]
    unfold detect_anomalies
    rw [if_neg (by omega : ¬ 10000 < m.stats.packet_count), h2, hscan]

/-- Claim C6, witness: the amended theorem applied to the spike fixture
(packet count 10001 with a port-qualifying IP present) and to the
interleaving fixture. -/
theorem c6_witness :
    detect_anomalies mSpike 7 =
      some ⟨mSpike.device_id, AlertType.Anomaly, AlertSeverity.High,
        "Traffic spike detected: " ++ toString mSpike.stats.packet_count ++ " packets/min",
        none, none, none, none, 7⟩ ∧
    detect_anomalies mAnomaly 0 =
      some ⟨mAnomaly.device_id, AlertType.Anomaly, AlertSeverity.High,
        "Data burst from IP: " ++ ipStr 1 ++ " (" ++ toString (2000000 : Nat) ++ " bytes)",
        some (ipStr 1), none, none, none, 0⟩ :=
  ⟨c6_check_order.1 mSpike 7 (by decide),
   c6_check_order.2 mAnomaly 0 1 ⟨0, 0, 2000000, 0, []⟩
     [(2, ⟨0, 0, 0, 0, List.replicate 21 80⟩)] (by decide) rfl (by decide) (by decide)
     (by decide)⟩

/-- Claim C9: the port-scan tracker only ever grows — each `analyze_packet`
call leaves every tracked sequence equal to its old value plus an appended
suffix, and the bandwidth roll-up never touches it — and once a source has
more than 10 tracked entries, every further tracked packet from it (not
blocked, payload parsing as TCP) returns the Intrusion/Critical alert
again. -/
theorem c9_tracker_monotone_retrigger :
    (∀ (m : NetworkMonitor) (now : Int) (f : Frame) (ip : Nat),
      ∃ tail, psGet (analyze_packet m now f).1.stats.port_scan_attempts ip =
        psGet m.stats.port_scan_attempts ip ++ tail) ∧
    (∀ (m : NetworkMonitor) (now : Int) (ip : Nat),
      psGet (monitor_bandwidth_tick m now).1.stats.port_scan_attempts ip =
        psGet m.stats.port_scan_attempts ip) ∧
    (∀ (m : NetworkMonitor) (now : Int) (r : Ipv4Record),
      r.source ∉ m.blocked_ips → 20 ≤ r.payload.length →
      10 < (psGet m.stats.port_scan_attempts r.source).length →
      (analyze_packet m now (Frame.ipv4 r)).2.map (fun a => (a.alert_type, a.severity)) =
        some (AlertType.Intrusion, AlertSeverity.Critical)) := by
  refine ⟨?_, fun m now ip => rfl, ?_⟩
  · intro m now f ip
    match f with
    | Frame.fail => exact ⟨[], by simp [analyze_packet]⟩
    | Frame.nonIpv4 => exact ⟨[], by simp [analyze_packet]⟩
    | Frame.ipv4 r =>
      by_cases hm : r.source ∈ m.blocked_ips
      · refine ⟨[], ?_⟩
        rw [analyze_packet_psa, if_pos hm, List.append_nil]
      · by_cases hl : 20 ≤ r.payload.length
        · refine ⟨if ip = r.source then [tcp_get_destination r.payload] else [], ?_⟩
          rw [analyze_packet_psa, if_neg hm, if_pos hl, psGet_psPush]
        · refine ⟨[], ?_⟩
          rw [analyze_packet_psa, if_neg hm, if_neg hl, List.append_nil]
  · intro m now r hm hl hgt
    exact (analyze_packet_tracked_alert m now r hm hl).mpr (by omega)

/-- Claim C9, witness: the retrigger part applied to a monitor whose
tracker already holds 11 entries for source 1, plus one more tracked
packet. -/
theorem c9_witness :
    (analyze_packet mScanned 0 (Frame.ipv4 ⟨1, 2, 6, payloadTcp80⟩)).2.map
        (fun a => (a.alert_type, a.severity)) =
      some (AlertType.Intrusion, AlertSeverity.Critical) :=
  c9_tracker_monotone_retrigger.2.2 mScanned 0 ⟨1, 2, 6, payloadTcp80⟩
    (by decide) (by decide) (by decide)

theorem analyze_packet_rest_type (m : NetworkMonitor) (now : Int) (r : Ipv4Record) :
    (analyze_packet_rest m now r).2.map (fun a => a.alert_type) = none ∨
    (analyze_packet_rest m now r).2.map (fun a => a.alert_type) =
      some AlertType.Malware := by
  unfold analyze_packet_rest
  split
  · right
    rfl
  · left
    rfl

/-- Claim C10: `NetworkMonitor::new` constructs an empty blocklist, no
operation ever modifies the blocklist, and with an empty blocklist no
packet can ever produce an UnauthorizedAccess alert. -/
theorem c10_blocklist_empty_no_unauthorized :
    (∀ d : String, (NetworkMonitor.new d).blocked_ips = []) ∧
    (∀ (m : NetworkMonitor) (now : Int) (f : Frame),
      (analyze_packet m now f).1.blocked_ips = m.blocked_ips) ∧
    (∀ (m : NetworkMonitor) (now : Int),
      (monitor_bandwidth_tick m now).1.blocked_ips = m.blocked_ips) ∧
    (∀ (m : NetworkMonitor) (now : Int) (f : Frame),
      m.blocked_ips = [] →
      (analyze_packet m now f).2.map (fun a => a.alert_type) ≠
        some AlertType.UnauthorizedAccess) := by
  refine ⟨fun d => rfl, ?_, fun m now => rfl, ?_⟩
  · intro m now f
    match f with
    | Frame.fail => rfl
    | Frame.nonIpv4 => rfl
    | Frame.ipv4 r => exact (analyze_packet_effects m now r).2.2.2.1
  · intro m now f hb
    match f with
    | Frame.fail => simp [analyze_packet]
    | Frame.nonIpv4 => simp [analyze_packet]
    | Frame.ipv4 r =>
      have hm : r.source ∉ m.blocked_ips := by simp [hb]
      by_cases hl : 20 ≤ r.payload.length
      · simp only [analyze_packet, List.elem_eq_mem, decide_eq_true_eq, hm, if_false,
          if_pos hl]
        split
        · simp
        · rcases analyze_packet_rest_type _ now r with hk | hk <;> rw [hk] <;> simp
      · simp only [analyze_packet, List.elem_eq_mem, decide_eq_true_eq, hm, if_false,
          if_neg hl]
        rcases analyze_packet_rest_type m now r with hk | hk <;> rw [hk] <;> simp

/-- Claim C10, witness: a fresh monitor processing a malware-bearing packet
produces an alert whose type is not UnauthorizedAccess. -/
theorem c10_witness :
    (analyze_packet (NetworkMonitor.new "d") 0 (Frame.ipv4 ⟨1, 2, 6, cmdPayload⟩)).2.map
        (fun a => a.alert_type) ≠ some AlertType.UnauthorizedAccess :=
  c10_blocklist_empty_no_unauthorized.2.2.2 (NetworkMonitor.new "d") 0
    (Frame.ipv4 ⟨1, 2, 6, cmdPayload⟩) rfl
